import Mathlib

/-!
Shallow embedding of the Wrabber messaging client (src/index.ts) and proofs
about its connection/topology resilience engine: configuration defaults,
topology setup and conflict recovery, reconnect backoff, the consumer
dispatch loop, the handler registry, and the publish (emit) path.

Effectful broker calls are modelled as explicit action traces: a run of a
method is a list of the broker operations it performs, together with the
error it re-raises (if any).  Broker behaviour is abstracted as an oracle
assigning each operation an optional AMQP error, matching the try/catch
structure of the source.
-/

namespace Wrabber

/-- Dead-letter configuration, `interface DlqConfig` in index.ts.
TS optional number fields become `Option Int`. -/
structure DlqConfig where
  enabled : Bool
  ttlMins : Option Int := none
  maxLength : Option Int := none
deriving Repr, DecidableEq

/-- The `unhandledEventAction` option: the literal union 'ack' | 'nack'. -/
inductive UnhandledAction where
  | ack
  | nack
deriving Repr, DecidableEq

/-- Constructor options, `interface EventsOpts` in index.ts.  Optional TS
fields become `Option`; `messageTtlMins?: number | null` collapses to
`Option Int` (the constructor maps every non-number to null anyway). -/
structure EventsOpts where
  url : String
  serviceName : String
  «namespace» : String
  debug : Option Bool := none
  canListen : Option Bool := none
  devMode : Option Bool := none
  heartbeatSec : Option Nat := none
  prefetch : Option Nat := none
  connectionName : Option String := none
  reconnectBackoffMs : Option (List Nat) := none
  durable : Option Bool := none
  dlq : Option DlqConfig := none
  messageTtlMins : Option Int := none
  unhandledEventAction : Option UnhandledAction := none
deriving Repr, DecidableEq

/-- Immutable per-instance configuration of `class Wrabber`, i.e. the
readonly fields assigned in the constructor, plus the `initialised` flag
(false until `init()` runs). -/
structure Inst where
  url : String
  serviceName : String
  «namespace» : String
  debug : Bool
  canListen : Bool
  devMode : Bool
  heartbeatSec : Nat
  prefetch : Nat
  durable : Bool
  dlq : DlqConfig
  messageTtlMins : Option Int
  reconnectBackoffMs : List Nat
  connectionName : String
  unhandledEventAction : UnhandledAction
  queueName : String
  dlxName : String
  dlqName : String
  initialised : Bool
deriving Repr, DecidableEq

/-- The default `dlq` object in the constructor destructuring is written
`\x7b enabled: false, ttlDays: 7, maxLength: 1000 \x7d`; `ttlDays` is not a
`DlqConfig` key, so at runtime `ttlMins` is undefined and `maxLength` is
1000. -/
def defaultDlq : DlqConfig := { enabled := false, ttlMins := none, maxLength := some 1000 }

/-- The default reconnect backoff sequence (index.ts line 82). -/
def defaultBackoff : List Nat := [500, 1000, 2000, 5000, 10000, 15000, 30000]

/-- The constructor of `class Wrabber`: applies the destructuring defaults
and computes the derived names.  `podName` models `process.env.POD_NAME`
and `pid` models `process.pid`. -/
def mkWrabber (opts : EventsOpts) (podName : Option String) (pid : Nat) : Inst :=
  { url := opts.url
    serviceName := opts.serviceName
    «namespace» := opts.«namespace»
    debug := opts.debug.getD false
    canListen := opts.canListen.getD false
    devMode := opts.devMode.getD false
    heartbeatSec := opts.heartbeatSec.getD 30
    prefetch := opts.prefetch.getD 10
    durable := opts.durable.getD true
    dlq := opts.dlq.getD defaultDlq
    messageTtlMins := opts.messageTtlMins
    reconnectBackoffMs := opts.reconnectBackoffMs.getD defaultBackoff
    connectionName := opts.connectionName.getD
      (opts.«namespace» ++ ":" ++ opts.serviceName ++ ":" ++ podName.getD "pod" ++ ":" ++ toString pid)
    unhandledEventAction := opts.unhandledEventAction.getD .ack
    queueName := opts.«namespace» ++ "." ++ opts.serviceName
    dlxName := opts.«namespace» ++ ".dlx"
    dlqName := opts.«namespace» ++ "." ++ opts.serviceName ++ ".dlq"
    initialised := false }

/-- An AMQP error, `interface AmqpError` (an Error carrying a numeric code). -/
structure AmqpErr where
  code : Int
deriving Repr, DecidableEq

/-- Predicate `isPreconditionFailed`: the error's code is 406. -/
def isPreconditionFailed (e : AmqpErr) : Bool := e.code == 406

/-- Queue declaration arguments, `amqp.Options.AssertQueue` as used here. -/
structure QueueOptions where
  durable : Bool
  exclusive : Bool
  autoDelete : Bool
  deadLetterExchange : Option String := none
  messageTtl : Option Int := none
  maxLength : Option Int := none
deriving Repr, DecidableEq

/-- The `queueOptions` object built at the top of `assertOrRecreateQueue`
(lines 153-164): durability from config, dead-letter exchange when dlq is
enabled, and `messageTtl = messageTtlMins * 60 * 1000` when
`messageTtlMins != null`. -/
def primaryQueueOptions (w : Inst) : QueueOptions :=
  { durable := w.durable
    exclusive := false
    autoDelete := false
    deadLetterExchange := if w.dlq.enabled then some w.dlxName else none
    messageTtl :=
      match w.messageTtlMins with
      | some m => some (m * 60 * 1000)
      | none => none }

/-- The `dlqOptions` object built in `_setupTopology` (lines 216-227):
`messageTtl = ttlMins * 60 * 1000` when `ttlMins` is a number > 0, and
`maxLength` when it is a number > 0. -/
def dlqQueueOptions (w : Inst) : QueueOptions :=
  { durable := true
    exclusive := false
    autoDelete := false
    messageTtl :=
      match w.dlq.ttlMins with
      | some t => if 0 < t then some (t * 60 * 1000) else none
      | none => none
    maxLength :=
      match w.dlq.maxLength with
      | some l => if 0 < l then some l else none
      | none => none }

/-- Broker operations performed during topology setup. -/
inductive TopoAction where
  | setPrefetch (n : Nat)
  | assertExchange (name : String) (kind : String) (durable : Bool)
  | assertQueue (name : String) (opts : QueueOptions)
  | bindQueue (queue : String) (exchange : String)
  | createRecoveryChannel
  | deleteQueue (name : String)
  | closeRecoveryChannel
deriving Repr, DecidableEq

/-- A broker oracle: what each operation returns when attempted (none on
success, some error when the call throws). -/
def Oracle : Type := TopoAction → Option AmqpErr

/-- Run a sequence of broker operations inside one try block: each is
attempted in order, and the first failure aborts the rest (the thrown
error is returned with the trace of operations actually attempted). -/
def runSeq (oracle : Oracle) : List TopoAction → List TopoAction × Option AmqpErr
  | [] => ([], none)
  | a :: rest =>
    match oracle a with
    | some e => ([a], some e)
    | none =>
      let r := runSeq oracle rest
      (a :: r.1, r.2)

/-- Method `assertOrRecreateQueue` (lines 152-202): declare and bind the
primary queue; on a precondition-failed (406) error open a temporary
recovery channel, delete the conflicting queue through it (deletion errors
are caught and logged), close the recovery channel in a finally block, and
re-throw the original error; any other error is re-thrown with no recovery
attempted.  If creating the recovery channel itself throws, the delete and
close never run (recoveryChannel stays undefined). -/
def assertOrRecreateQueue (oracle : Oracle) (w : Inst) : List TopoAction × Option AmqpErr :=
  let declared := runSeq oracle
    [TopoAction.assertQueue w.queueName (primaryQueueOptions w),
     TopoAction.bindQueue w.queueName w.«namespace»]
  match declared.2 with
  | none => (declared.1, none)
  | some e =>
    if isPreconditionFailed e then
      match oracle TopoAction.createRecoveryChannel with
      | some _ => (declared.1 ++ [TopoAction.createRecoveryChannel], some e)
      | none =>
        (declared.1 ++
          [TopoAction.createRecoveryChannel,
           TopoAction.deleteQueue w.queueName,
           TopoAction.closeRecoveryChannel], some e)
    else
      (declared.1, some e)

/-- Method `_setupTopology` (lines 204-234): set prefetch, assert the main
fanout exchange, then (when dlq is enabled) assert the dead-letter exchange
and queue and bind them, then run `assertOrRecreateQueue`.  Any failure in
the early steps propagates (no try/catch wraps them). -/
def setupTopology (oracle : Oracle) (w : Inst) : List TopoAction × Option AmqpErr :=
  let pre := runSeq oracle
    ([TopoAction.setPrefetch w.prefetch,
      TopoAction.assertExchange w.«namespace» "fanout" w.durable] ++
     (if w.dlq.enabled then
        [TopoAction.assertExchange w.dlxName "fanout" true,
         TopoAction.assertQueue w.dlqName (dlqQueueOptions w),
         TopoAction.bindQueue w.dlqName w.dlxName]
      else []))
  match pre.2 with
  | some e => (pre.1, some e)
  | none =>
    let q := assertOrRecreateQueue oracle w
    (pre.1 ++ q.1, q.2)

/-- Backoff delay computed in the catch branch of `reconnectLoop` (lines
313-316) after the Nth failed attempt: the loop increments `attempt` before
each try, so after the Nth failure the delay is
`reconnectBackoffMs[min(attempt - 1, length - 1)]` with `attempt = N`. -/
def backoffDelay (seq : List Nat) (attempt : Nat) : Option Nat :=
  seq.get? (min (attempt - 1) (seq.length - 1))

/-- Lookup in a JS `Map` modelled as an insertion-ordered association
list with unique keys: `Map.get` returns the entry's value or undefined. -/
def mapGet {H : Type} : List (String × H) → String → Option H
  | [], _ => none
  | p :: rest, k => if p.1 = k then some p.2 else mapGet rest k

/-- Update of a JS `Map` by `Map.set`: overwrite the existing entry in
place (keys are unique), or append a new entry at the end. -/
def mapSet {H : Type} : List (String × H) → String → H → List (String × H)
  | [], k, v => [(k, v)]
  | p :: rest, k, v => if p.1 = k then (k, v) :: rest else p :: mapSet rest k v

/-- Method `on` (lines 500-508): wrap a single event name into a list,
then `handlers.set(e, handler)` for each listed name. -/
def registerOn {H : Type} (m : List (String × H)) (events : List String) (h : H) :
    List (String × H) :=
  events.foldl (fun acc e => mapSet acc e h) m

/-- Outcome of awaiting a registered handler: it either completes or
throws / returns a rejected promise. -/
inductive HandlerOutcome where
  | success
  | failure
deriving Repr, DecidableEq

/-- What the consume callback decodes from a delivered message body:
either `JSON.parse` throws, or it yields an envelope whose `event` field
may be absent (`none`) or any string (possibly empty). -/
inductive ParsedMsg (D : Type) where
  | invalidJson
  | ok (event : Option String) (data : D)
deriving Repr, DecidableEq

/-- The acknowledgement action the consume callback performs on the
channel for one message. -/
inductive ConsumeAction where
  | ack
  | nackNoRequeue
deriving Repr, DecidableEq

/-- Line 418: `const handler = event ? this.handlers.get(event) : undefined`.
The registry is only consulted when `event` is truthy, i.e. present and
not the empty string. -/
def handlerFor {H : Type} (handlers : List (String × H)) (event : Option String) : Option H :=
  match event with
  | some s => if s ≠ "" then mapGet handlers s else none
  | none => none

/-- The consume callback body (lines 393-437) for a single message, given
the registered handlers and a `run` function giving each handler's outcome
on the message data: invalid JSON is nacked without requeue; a found
handler is awaited, with ack on success and nack-without-requeue on
failure; with no handler the unhandled-event policy decides ack or
nack-without-requeue. -/
def consumeMsg {H D : Type} (handlers : List (String × H)) (run : H → D → HandlerOutcome)
    (policy : UnhandledAction) (msg : ParsedMsg D) : ConsumeAction :=
  match msg with
  | ParsedMsg.invalidJson => ConsumeAction.nackNoRequeue
  | ParsedMsg.ok event data =>
    match handlerFor handlers event with
    | some h =>
      match run h data with
      | HandlerOutcome.success => ConsumeAction.ack
      | HandlerOutcome.failure => ConsumeAction.nackNoRequeue
    | none =>
      match policy with
      | UnhandledAction.ack => ConsumeAction.ack
      | UnhandledAction.nack => ConsumeAction.nackNoRequeue

/-- The consumer loop over a delivery sequence: the callback runs once per
message and never escapes an exception (every path acks or nacks), so each
delivered message is processed independently. -/
def consumeAll {H D : Type} (handlers : List (String × H)) (run : H → D → HandlerOutcome)
    (policy : UnhandledAction) (msgs : List (ParsedMsg D)) : List ConsumeAction :=
  msgs.map (consumeMsg handlers run policy)

/-- Observable effects of one `emit` call (lines 335-368). -/
inductive EmitEffect where
  | logDevModeWouldEmit
  | logEmitBeforeInit
  | awaitReadyGate
  | logChannelUnavailable
  | logEmitting
  | publish (exchange : String) (payload : String)
deriving Repr, DecidableEq

/-- `JSON.stringify` of the envelope written by emit (line 363). -/
def encodeEnvelope (event : String) (data : String) : String :=
  "\x7b\"event\":\"" ++ event ++ "\",\"data\":" ++ data ++ "\x7d"

/-- Method `emit` (lines 335-368), as the list of effects it performs and
the (unchanged) instance: in devMode it at most logs and returns; before
`init()` it logs an error and drops the message; otherwise it awaits the
readiness gate, then either logs that the channel is missing or publishes
the serialized envelope to the namespace exchange.  No branch throws and
no branch assigns to any field. -/
def emit (w : Inst) (channelAvailable : Bool) (event : String) (data : String) :
    List EmitEffect × Inst :=
  if w.devMode then
    ((if w.debug then [EmitEffect.logDevModeWouldEmit] else []), w)
  else if !w.initialised then
    ([EmitEffect.logEmitBeforeInit], w)
  else
    ([EmitEffect.awaitReadyGate] ++
      (if !channelAvailable then
        [EmitEffect.logChannelUnavailable]
      else
        (if w.debug then [EmitEffect.logEmitting] else []) ++
        [EmitEffect.publish w.«namespace» (encodeEnvelope event data)]), w)

/-- Setting a key makes lookup of that key return the new value. -/
theorem mapGet_mapSet_self {H : Type} (m : List (String × H)) (k : String) (v : H) :
    mapGet (mapSet m k v) k = some v := by
  induction m with
  | nil => simp [mapGet, mapSet]
  | cons p rest ih =>
    by_cases hpk : p.1 = k
    · simp [mapGet, mapSet, hpk]
    · simp [mapGet, mapSet, hpk, ih]

/-- Setting one key leaves lookups of other keys unchanged. -/
theorem mapGet_mapSet_ne {H : Type} (m : List (String × H)) (k k' : String) (v : H)
    (hne : k' ≠ k) :
    mapGet (mapSet m k v) k' = mapGet m k' := by
  induction m with
  | nil => simp [mapGet, mapSet, Ne.symm hne]
  | cons p rest ih =>
    by_cases hpk : p.1 = k
    · simp [mapGet, mapSet, hpk, Ne.symm hne]
    · simp [mapGet, mapSet, hpk, ih]

/-- Characterisation of the registry after `on`: every listed name now maps
to the registered handler, and unlisted names are untouched. -/
theorem mapGet_registerOn {H : Type} (events : List String) (m : List (String × H))
    (h : H) (e : String) :
    mapGet (registerOn m events h) e = if e ∈ events then some h else mapGet m e := by
  induction events generalizing m with
  | nil => simp [registerOn]
  | cons a rest ih =>
    have hfold : registerOn m (a :: rest) h = registerOn (mapSet m a h) rest h := rfl
    rw [hfold, ih]
    by_cases hea : e = a
    · subst hea
      by_cases her : e ∈ rest <;> simp [her, mapGet_mapSet_self]
    · by_cases her : e ∈ rest <;> simp [hea, her, mapGet_mapSet_ne _ _ _ _ hea]

/-- A run of a nonempty call sequence always attempts the first call first. -/
theorem runSeq_cons_head (oracle : Oracle) (a : TopoAction) (rest : List TopoAction) :
    ∃ tl, (runSeq oracle (a :: rest)).1 = a :: tl := by
  cases h : oracle a <;> simp [runSeq, h]

/-- The first broker operation of `_setupTopology` is always setting the
configured prefetch on the channel. -/
theorem setupTopology_head (oracle : Oracle) (w : Inst) :
    (setupTopology oracle w).1.head? = some (TopoAction.setPrefetch w.prefetch) := by
  obtain ⟨tl, htl⟩ := runSeq_cons_head oracle (TopoAction.setPrefetch w.prefetch)
    ([TopoAction.assertExchange w.«namespace» "fanout" w.durable] ++
     (if w.dlq.enabled then
        [TopoAction.assertExchange w.dlxName "fanout" true,
         TopoAction.assertQueue w.dlqName (dlqQueueOptions w),
         TopoAction.bindQueue w.dlqName w.dlxName]
      else []))
  unfold setupTopology
  simp only [List.cons_append, List.nil_append] at htl ⊢
  cases h2 : (runSeq oracle (TopoAction.setPrefetch w.prefetch ::
      (TopoAction.assertExchange w.«namespace» "fanout" w.durable ::
       (if w.dlq.enabled then
          [TopoAction.assertExchange w.dlxName "fanout" true,
           TopoAction.assertQueue w.dlqName (dlqQueueOptions w),
           TopoAction.bindQueue w.dlqName w.dlxName]
        else [])))).2 <;>
    simp [h2, htl]

/-- A sample configuration leaving every optional field at its default. -/
def sampleOpts : EventsOpts :=
  { url := "amqp://broker", serviceName := "svc", «namespace» := "ns" }

/-- The instance the constructor builds from `sampleOpts`. -/
def sampleInst : Inst := mkWrabber sampleOpts (some "pod-1") 42

/-- A broker where every operation succeeds. -/
def oracleOk : Oracle := fun _ => none

/-- A broker where the primary-queue declaration fails with code 406 and
everything else succeeds. -/
def oracle406 : Oracle := fun a =>
  match a with
  | TopoAction.assertQueue _ _ => some { code := 406 }
  | _ => none

/-- A broker where the primary-queue declaration fails with a non-406 code
(an access-refused 403) and everything else succeeds. -/
def oracle403 : Oracle := fun a =>
  match a with
  | TopoAction.assertQueue _ _ => some { code := 403 }
  | _ => none

/-- C2: after the Nth failed connection attempt the wait is
`reconnectBackoffMs[min(N-1, len-1)]`; with the default sequence, attempts
1..7 wait 500, 1000, 2000, 5000, 10000, 15000, 30000 ms, and every attempt
from the 8th on waits 30000 ms. -/
theorem C2_backoff_schedule :
    ((List.range 7).map (fun i => backoffDelay defaultBackoff (i + 1)) =
      [some 500, some 1000, some 2000, some 5000, some 10000, some 15000, some 30000]) ∧
    (∀ n, 1 ≤ n → backoffDelay defaultBackoff n =
      defaultBackoff.get? (min (n - 1) (defaultBackoff.length - 1))) ∧
    (∀ n, 8 ≤ n → backoffDelay defaultBackoff n = some 30000) := by
  refine ⟨by decide, fun n _ => rfl, fun n hn => ?_⟩
  have hlen : defaultBackoff.length - 1 = 6 := by decide
  have hmin : min (n - 1) 6 = 6 := by omega
  simp only [backoffDelay, hlen, hmin]
  decide

/-- Witness for C2 at concrete attempt numbers 3 and 10. -/
theorem C2_backoff_schedule_witness :
    (1 ≤ 3 ∧ backoffDelay defaultBackoff 3 =
      defaultBackoff.get? (min (3 - 1) (defaultBackoff.length - 1))) ∧
    (8 ≤ 10 ∧ backoffDelay defaultBackoff 10 = some 30000) :=
  ⟨⟨by decide, C2_backoff_schedule.2.1 3 (by decide)⟩,
   ⟨by decide, C2_backoff_schedule.2.2 10 (by decide)⟩⟩

/-- C5 counterexample: a configuration omitting `prefetch` yields an
instance whose prefetch is 10, not the claimed 50 (index.ts line 78 reads
`prefetch = 10`). -/
theorem C5_counterexample :
    sampleOpts.prefetch = none ∧ sampleInst.prefetch ≠ 50 ∧ sampleInst.prefetch = 10 :=
  ⟨rfl, by decide, rfl⟩

/-- C5 (amended): when the configuration omits the prefetch count, the
constructed instance's prefetch count is 10, and this value is applied to
the channel as the first step of topology setup. -/
theorem C5_default_prefetch (opts : EventsOpts) (podName : Option String) (pid : Nat)
    (oracle : Oracle) (hNo : opts.prefetch = none) :
    (mkWrabber opts podName pid).prefetch = 10 ∧
    (setupTopology oracle (mkWrabber opts podName pid)).1.head? =
      some (TopoAction.setPrefetch 10) := by
  have hp : (mkWrabber opts podName pid).prefetch = 10 := by
    simp [mkWrabber, hNo]
  refine ⟨hp, ?_⟩
  rw [setupTopology_head, hp]

/-- Witness for C5 (amended) at the sample configuration. -/
theorem C5_default_prefetch_witness :
    sampleOpts.prefetch = none ∧
    (mkWrabber sampleOpts (some "pod-1") 42).prefetch = 10 ∧
    (setupTopology oracleOk (mkWrabber sampleOpts (some "pod-1") 42)).1.head? =
      some (TopoAction.setPrefetch 10) :=
  ⟨rfl, (C5_default_prefetch sampleOpts (some "pod-1") 42 oracleOk rfl).1,
   (C5_default_prefetch sampleOpts (some "pod-1") 42 oracleOk rfl).2⟩

/-- C10: TTL settings are minutes multiplied by 60 * 1000 when declaring
queues; the primary queue carries `messageTtl` exactly when
`messageTtlMins` is a number, and the dead-letter queue carries
`messageTtl` (resp. `maxLength`) exactly when `dlq.ttlMins` (resp.
`dlq.maxLength`) is a number strictly greater than zero. -/
theorem C10_ttl_minutes (w : Inst) :
    (∀ t : Int, w.messageTtlMins = some t →
      (primaryQueueOptions w).messageTtl = some (t * 60 * 1000)) ∧
    (w.messageTtlMins = none → (primaryQueueOptions w).messageTtl = none) ∧
    (∀ t : Int, w.dlq.ttlMins = some t →
      (dlqQueueOptions w).messageTtl = if 0 < t then some (t * 60 * 1000) else none) ∧
    (w.dlq.ttlMins = none → (dlqQueueOptions w).messageTtl = none) ∧
    (∀ l : Int, w.dlq.maxLength = some l →
      (dlqQueueOptions w).maxLength = if 0 < l then some l else none) ∧
    (w.dlq.maxLength = none → (dlqQueueOptions w).maxLength = none) := by
  refine ⟨fun t ht => ?_, fun ht => ?_, fun t ht => ?_, fun ht => ?_,
    fun l hl => ?_, fun hl => ?_⟩
  · simp [primaryQueueOptions, ht]
  · simp [primaryQueueOptions, ht]
  · simp [dlqQueueOptions, ht]
  · simp [dlqQueueOptions, ht]
  · simp [dlqQueueOptions, hl]
  · simp [dlqQueueOptions, hl]

/-- A sample configuration with TTL and dead-letter limits set. -/
def ttlOpts : EventsOpts :=
  { url := "amqp://broker", serviceName := "svc", «namespace» := "ns",
    messageTtlMins := some 2,
    dlq := some { enabled := true, ttlMins := some 5, maxLength := some 100 } }

/-- The instance the constructor builds from `ttlOpts`. -/
def ttlInst : Inst := mkWrabber ttlOpts (some "pod-1") 42

/-- Witness for C10 at the sample TTL configuration. -/
theorem C10_ttl_minutes_witness :
    (primaryQueueOptions ttlInst).messageTtl = some (2 * 60 * 1000) ∧
    (dlqQueueOptions ttlInst).messageTtl = (if (0 : Int) < 5 then some (5 * 60 * 1000) else none) ∧
    (dlqQueueOptions ttlInst).maxLength = (if (0 : Int) < 100 then some 100 else none) :=
  ⟨(C10_ttl_minutes ttlInst).1 2 rfl,
   (C10_ttl_minutes ttlInst).2.2.1 5 rfl,
   (C10_ttl_minutes ttlInst).2.2.2.2.1 100 rfl⟩

/-- C1: when declaring the primary queue fails with a precondition-mismatch
signal (code 406), `assertOrRecreateQueue` opens a temporary recovery
channel on the connection, deletes the conflicting queue through it, closes
the temporary channel, and re-raises the original error; when the
declaration fails with any other code, the error propagates and no queue
deletion is attempted. -/
theorem C1_conflict_recovery (oracle : Oracle) (w : Inst) (e : AmqpErr)
    (hAssert : oracle (TopoAction.assertQueue w.queueName (primaryQueueOptions w)) = some e) :
    (e.code = 406 → oracle TopoAction.createRecoveryChannel = none →
      assertOrRecreateQueue oracle w =
        ([TopoAction.assertQueue w.queueName (primaryQueueOptions w),
          TopoAction.createRecoveryChannel,
          TopoAction.deleteQueue w.queueName,
          TopoAction.closeRecoveryChannel], some e)) ∧
    (e.code ≠ 406 →
      assertOrRecreateQueue oracle w =
        ([TopoAction.assertQueue w.queueName (primaryQueueOptions w)], some e) ∧
      ∀ q, TopoAction.deleteQueue q ∉ (assertOrRecreateQueue oracle w).1) := by
  have hrun : runSeq oracle
      [TopoAction.assertQueue w.queueName (primaryQueueOptions w),
       TopoAction.bindQueue w.queueName w.«namespace»] =
      ([TopoAction.assertQueue w.queueName (primaryQueueOptions w)], some e) := by
    simp [runSeq, hAssert]
  constructor
  · intro h406 hCreate
    simp [assertOrRecreateQueue, hrun, isPreconditionFailed, h406, hCreate]
  · intro hne
    have hfalse : isPreconditionFailed e = false := by
      simp [isPreconditionFailed, hne]
    have heq : assertOrRecreateQueue oracle w =
        ([TopoAction.assertQueue w.queueName (primaryQueueOptions w)], some e) := by
      simp [assertOrRecreateQueue, hrun, hfalse]
    exact ⟨heq, fun q => by simp [heq]⟩

/-- Witness for C1: a 406 declaration failure on the sample instance
produces exactly the declare, recover, delete, close trace and re-raises
the 406 error, while a 403 failure re-raises with no deletion. -/
theorem C1_conflict_recovery_witness :
    assertOrRecreateQueue oracle406 sampleInst =
      ([TopoAction.assertQueue sampleInst.queueName (primaryQueueOptions sampleInst),
        TopoAction.createRecoveryChannel,
        TopoAction.deleteQueue sampleInst.queueName,
        TopoAction.closeRecoveryChannel], some { code := 406 }) ∧
    assertOrRecreateQueue oracle403 sampleInst =
      ([TopoAction.assertQueue sampleInst.queueName (primaryQueueOptions sampleInst)],
        some { code := 403 }) :=
  ⟨(C1_conflict_recovery oracle406 sampleInst { code := 406 } rfl).1 rfl rfl,
   ((C1_conflict_recovery oracle403 sampleInst { code := 403 } rfl).2 (by decide)).1⟩

/-- C3: a delivered message whose decoded event has no registered handler
is acknowledged under the 'ack' unhandled-event policy and rejected without
requeue under the 'nack' policy. -/
theorem C3_unhandled_policy {H D : Type} (handlers : List (String × H))
    (run : H → D → HandlerOutcome) (event : Option String) (data : D)
    (hNo : handlerFor handlers event = none) :
    consumeMsg handlers run UnhandledAction.ack (ParsedMsg.ok event data) =
      ConsumeAction.ack ∧
    consumeMsg handlers run UnhandledAction.nack (ParsedMsg.ok event data) =
      ConsumeAction.nackNoRequeue := by
  constructor <;> simp [consumeMsg, hNo]

/-- Witness for C3: a message for an unregistered event name under each
policy value. -/
theorem C3_unhandled_policy_witness :
    handlerFor [("other.event", HandlerOutcome.success)] (some "ns.missing") = none ∧
    consumeMsg [("other.event", HandlerOutcome.success)] (fun h _ => h)
      UnhandledAction.ack (ParsedMsg.ok (some "ns.missing") (0 : Nat)) = ConsumeAction.ack ∧
    consumeMsg [("other.event", HandlerOutcome.success)] (fun h _ => h)
      UnhandledAction.nack (ParsedMsg.ok (some "ns.missing") (0 : Nat)) =
      ConsumeAction.nackNoRequeue :=
  ⟨by decide,
   (C3_unhandled_policy _ (fun h _ => h) _ _ (by decide)).1,
   (C3_unhandled_policy _ (fun h _ => h) _ _ (by decide)).2⟩

/-- C4: a delivered message whose registered handler fails is rejected
without requeue, is not acknowledged, and the consumer keeps going: the
next delivered message is still dispatched. -/
theorem C4_handler_failure {H D : Type} (handlers : List (String × H))
    (run : H → D → HandlerOutcome) (policy : UnhandledAction)
    (event : Option String) (data : D) (h : H) (rest : List (ParsedMsg D))
    (hFound : handlerFor handlers event = some h)
    (hFail : run h data = HandlerOutcome.failure) :
    consumeMsg handlers run policy (ParsedMsg.ok event data) = ConsumeAction.nackNoRequeue ∧
    consumeMsg handlers run policy (ParsedMsg.ok event data) ≠ ConsumeAction.ack ∧
    consumeAll handlers run policy (ParsedMsg.ok event data :: rest) =
      ConsumeAction.nackNoRequeue :: consumeAll handlers run policy rest := by
  have h1 : consumeMsg handlers run policy (ParsedMsg.ok event data) =
      ConsumeAction.nackNoRequeue := by
    simp [consumeMsg, hFound, hFail]
  exact ⟨h1, by simp [h1], by simp [consumeAll, h1]⟩

/-- Witness for C4: a failing handler for a concrete event, followed by a
second message that is still processed. -/
theorem C4_handler_failure_witness :
    consumeMsg [("ns.fail", HandlerOutcome.failure)] (fun h _ => h)
      UnhandledAction.ack (ParsedMsg.ok (some "ns.fail") (0 : Nat)) =
      ConsumeAction.nackNoRequeue ∧
    consumeMsg [("ns.fail", HandlerOutcome.failure)] (fun h _ => h)
      UnhandledAction.ack (ParsedMsg.ok (some "ns.fail") (0 : Nat)) ≠ ConsumeAction.ack ∧
    consumeAll [("ns.fail", HandlerOutcome.failure)] (fun h _ => h)
      UnhandledAction.ack
      (ParsedMsg.ok (some "ns.fail") (0 : Nat) :: [ParsedMsg.ok (some "ns.fail") 1]) =
      ConsumeAction.nackNoRequeue ::
        consumeAll [("ns.fail", HandlerOutcome.failure)] (fun h _ => h)
          UnhandledAction.ack [ParsedMsg.ok (some "ns.fail") 1] :=
  C4_handler_failure _ (fun h _ => h) _ _ _ HandlerOutcome.failure _ (by decide) rfl

/-- C6: in devMode, `emit` performs at most a debug log: it does not await
the readiness gate and publishes nothing, and the instance is unchanged. -/
theorem C6_devmode_emit (w : Inst) (channelAvailable : Bool) (event data : String)
    (hDev : w.devMode = true) :
    emit w channelAvailable event data =
      ((if w.debug then [EmitEffect.logDevModeWouldEmit] else []), w) ∧
    EmitEffect.awaitReadyGate ∉ (emit w channelAvailable event data).1 ∧
    ∀ ex p, EmitEffect.publish ex p ∉ (emit w channelAvailable event data).1 := by
  have h1 : emit w channelAvailable event data =
      ((if w.debug then [EmitEffect.logDevModeWouldEmit] else []), w) := by
    simp [emit, hDev]
  refine ⟨h1, ?_, fun ex p => ?_⟩
  · rw [h1]; by_cases hd : w.debug = true <;> simp [hd]
  · rw [h1]; by_cases hd : w.debug = true <;> simp [hd]

/-- A sample configuration running in devMode. -/
def devOpts : EventsOpts :=
  { url := "amqp://broker", serviceName := "svc", «namespace» := "ns",
    devMode := some true }

/-- The instance the constructor builds from `devOpts`. -/
def devInst : Inst := mkWrabber devOpts (some "pod-1") 42

/-- Witness for C6 at the devMode sample instance. -/
theorem C6_devmode_emit_witness :
    emit devInst true "ns.foo" "1" =
      ((if devInst.debug then [EmitEffect.logDevModeWouldEmit] else []), devInst) ∧
    EmitEffect.awaitReadyGate ∉ (emit devInst true "ns.foo" "1").1 ∧
    EmitEffect.publish "ns" (encodeEnvelope "ns.foo" "1") ∉ (emit devInst true "ns.foo" "1").1 :=
  ⟨(C6_devmode_emit devInst true "ns.foo" "1" rfl).1,
   (C6_devmode_emit devInst true "ns.foo" "1" rfl).2.1,
   (C6_devmode_emit devInst true "ns.foo" "1" rfl).2.2 "ns" (encodeEnvelope "ns.foo" "1")⟩

/-- C7: in live mode, an `emit` before `init()` has ever run (so the
`initialised` flag is still false, as the constructor leaves it) logs an
error and drops the message: the only effect is the error log, nothing is
published, the readiness gate is not awaited, and the instance state is
returned unchanged. -/
theorem C7_emit_before_init (opts : EventsOpts) (podName : Option String) (pid : Nat)
    (channelAvailable : Bool) (event data : String)
    (hLive : (mkWrabber opts podName pid).devMode = false) :
    (mkWrabber opts podName pid).initialised = false ∧
    emit (mkWrabber opts podName pid) channelAvailable event data =
      ([EmitEffect.logEmitBeforeInit], mkWrabber opts podName pid) := by
  refine ⟨rfl, ?_⟩
  have hLive' : opts.devMode.getD false = false := by
    simpa [mkWrabber] using hLive
  simp [emit, mkWrabber, hLive']

/-- Witness for C7 at the sample live-mode configuration. -/
theorem C7_emit_before_init_witness :
    (mkWrabber sampleOpts (some "pod-1") 42).initialised = false ∧
    emit (mkWrabber sampleOpts (some "pod-1") 42) true "ns.foo" "1" =
      ([EmitEffect.logEmitBeforeInit], mkWrabber sampleOpts (some "pod-1") 42) :=
  C7_emit_before_init sampleOpts (some "pod-1") 42 true "ns.foo" "1" rfl

/-- C8: registering two handlers in turn for the same event name leaves
the registry mapping that name to the later handler, whether the second
registration used a single name or a list containing it, and registering a
list installs the same handler under every listed name. -/
theorem C8_registry_last_wins {H : Type} (m : List (String × H)) (n : String)
    (h1 h2 : H) (events : List String) (hMem : n ∈ events) :
    mapGet (registerOn (registerOn m [n] h1) [n] h2) n = some h2 ∧
    mapGet (registerOn (registerOn m [n] h1) events h2) n = some h2 ∧
    ∀ e ∈ events, mapGet (registerOn m events h2) e = some h2 := by
  refine ⟨?_, ?_, fun e he => ?_⟩
  · simp [mapGet_registerOn]
  · simp [mapGet_registerOn, hMem]
  · simp [mapGet_registerOn, he]

/-- Witness for C8 with concrete names and handlers. -/
theorem C8_registry_last_wins_witness :
    mapGet (registerOn (registerOn ([] : List (String × HandlerOutcome)) ["ns.a"]
      HandlerOutcome.success) ["ns.a"] HandlerOutcome.failure) "ns.a" =
      some HandlerOutcome.failure ∧
    mapGet (registerOn (registerOn ([] : List (String × HandlerOutcome)) ["ns.a"]
      HandlerOutcome.success) ["ns.a", "ns.b"] HandlerOutcome.failure) "ns.a" =
      some HandlerOutcome.failure ∧
    mapGet (registerOn ([] : List (String × HandlerOutcome)) ["ns.a", "ns.b"]
      HandlerOutcome.failure) "ns.b" = some HandlerOutcome.failure :=
  ⟨(C8_registry_last_wins [] "ns.a" HandlerOutcome.success HandlerOutcome.failure
      ["ns.a", "ns.b"] (by decide)).1,
   (C8_registry_last_wins [] "ns.a" HandlerOutcome.success HandlerOutcome.failure
      ["ns.a", "ns.b"] (by decide)).2.1,
   (C8_registry_last_wins [] "ns.a" HandlerOutcome.success HandlerOutcome.failure
      ["ns.a", "ns.b"] (by decide)).2.2 "ns.b" (by decide)⟩

/-- C9: a message that parses as JSON but whose event field is absent or
the empty string never reaches the malformed-JSON rejection path; the
registry is not even consulted (the lookup yields nothing even when a
handler is registered under the empty name) and the unhandled-event policy
decides the acknowledgement. -/
theorem C9_falsy_event_policy {H D : Type} (handlers : List (String × H))
    (run : H → D → HandlerOutcome) (policy : UnhandledAction)
    (event : Option String) (data : D)
    (hFalsy : event = none ∨ event = some "") :
    handlerFor handlers event = none ∧
    consumeMsg handlers run policy (ParsedMsg.ok event data) =
      (match policy with
       | UnhandledAction.ack => ConsumeAction.ack
       | UnhandledAction.nack => ConsumeAction.nackNoRequeue) := by
  have hno : handlerFor handlers event = none := by
    rcases hFalsy with h | h <;> subst h <;> simp [handlerFor]
  refine ⟨hno, ?_⟩
  cases policy <;> simp [consumeMsg, hno]

/-- Witness for C9: an empty event string with a handler registered under
the empty name, under the 'ack' policy; and an absent event under the
'nack' policy. -/
theorem C9_falsy_event_policy_witness :
    (handlerFor [("", HandlerOutcome.success)] (some "") = none ∧
      consumeMsg [("", HandlerOutcome.success)] (fun h _ => h)
        UnhandledAction.ack (ParsedMsg.ok (some "") (0 : Nat)) = ConsumeAction.ack) ∧
    (handlerFor ([] : List (String × HandlerOutcome)) (none : Option String) = none ∧
      consumeMsg ([] : List (String × HandlerOutcome)) (fun h _ => h)
        UnhandledAction.nack (ParsedMsg.ok none (0 : Nat)) = ConsumeAction.nackNoRequeue) :=
  ⟨C9_falsy_event_policy _ (fun h _ => h) UnhandledAction.ack (some "") 0 (Or.inr rfl),
   C9_falsy_event_policy _ (fun h _ => h) UnhandledAction.nack none 0 (Or.inl rfl)⟩

end Wrabber
